import Mathlib

/- Verification of the batch media-transcoding orchestrator
   (src/trancoder/video_transcoder.py, with src/trancoder/transcode.py as an
   older variant of the same script).

   The Python code is shallowly embedded below.  External collaborators
   (the ffprobe prober, the ffmpeg encoder, the filesystem) are modelled by
   explicit environment records carrying their observable answers: the probe
   JSON documents become structures of `Option` fields (a `none` field is an
   absent JSON key), process failures become `none`/flags, and the global
   `stats` dictionary becomes an explicit `RunStats` value threaded through
   the per-file step.  Python floats are modelled as exact rationals (the
   constants 1.5, 0.995 and 0.5 appearing in the code are exactly
   representable, and every claim stays far from any float-rounding
   boundary). -/

namespace Trancoder

/-! ## Probe documents (ffprobe JSON output) -/

/-- One entry of the ffprobe `streams` array.  Each field is `none` when the
corresponding JSON key is absent.  `r_frame_rate` is the already-split
"N/D" pair; `none` covers both an absent key (the code then parses the
default string "30/1", i.e. 30) and an unparsable value (the code falls
back to 30.0), which yield the same frame rate.  `side_data_list` keeps the
`side_data_type` tags of the side-data entries. -/
structure FFStream where
  codec_type : Option String
  codec_name : Option String
  width : Option Nat
  height : Option Nat
  pix_fmt : Option String
  sample_rate : Option Nat
  channels : Option Nat
  r_frame_rate : Option (Int × Int)
  color_primaries : Option String
  color_transfer : Option String
  color_space : Option String
  side_data_list : List String

/-- The ffprobe `format` section: `duration` and `bit_rate` (in bits per
second), each `none` when the key is absent. -/
structure FFFormat where
  duration : Option ℚ
  bit_rate : Option Nat

/-- A successfully parsed ffprobe document. -/
structure ProbeDoc where
  streams : List FFStream
  format : FFFormat

/-- The `color_info` dictionary built by `get_video_info` (lines 118-127). -/
structure ColorInfo where
  colorprim : String
  transfer : String
  colormatrix : String

/-! ## Resolution classification and bitrate policy -/

/-- The height classification of `get_video_info`, lines 108-116: start from
"unknown" and take the first inclusive upper threshold that applies. -/
def classifyResolution (height : Nat) : String :=
  if height ≤ 480 then "480p"
  else if height ≤ 720 then "720p"
  else if height ≤ 1080 then "1080p"
  else if height ≤ 2160 then "4k"
  else "unknown"

/-- The `base_bitrates` dictionary of `calculate_bitrate` (line 213), as a
lookup returning `none` for a key that is not in the dictionary. -/
def base_bitrates (resolution : String) : Option Nat :=
  if resolution = "480p" then some 2000
  else if resolution = "720p" then some 5000
  else if resolution = "1080p" then some 10000
  else if resolution = "4k" then some 35000
  else none

/-- `calculate_bitrate` (lines 212-215): dictionary lookup with default
10000, multiplier 1.5 when fps > 30 else 1.0, and Python `int()` on the
product.  The product is non-negative, so `int()` (truncation toward zero)
is the floor. -/
def calculate_bitrate (resolution : String) (fps : ℚ) : ℤ :=
  Int.floor (((base_bitrates resolution).getD 10000 : ℚ) *
    (if fps > 30 then 3 / 2 else 1))

/-- The base table exactly as the specification words it, written
independently of the code for the refinement comparison in claim C1:
480p↦2000, 720p↦5000, 1080p↦10000, 4k↦35000, and unknown↦10000 (the 1080p
base). -/
def specBaseBitrate : String → Nat
  | "480p" => 2000
  | "720p" => 5000
  | "1080p" => 10000
  | "4k" => 35000
  | _ => 10000

/-! ## Output validation (`is_output_valid`, lines 143-210) -/

/-- The stream scan of lines 159-165: the loop overwrites the variable on
every stream of the matching `codec_type`, so the last such stream wins. -/
def lastStreamOfType (t : String) (streams : List FFStream) : Option FFStream :=
  streams.foldl (fun acc s => if s.codec_type = some t then some s else acc) none

/-- Number of streams tagged with a given `codec_type` (used to state the
stream-count claims; not part of the code). -/
def countStreamsOfType (t : String) (streams : List FFStream) : Nat :=
  (streams.filter (fun s => s.codec_type == some t)).length

/-- The duration condition of line 186: the output is considered incomplete
when the input duration is positive and the output duration is below 99.5%
of it. -/
def durationTooShort (input_duration output_duration : ℚ) : Prop :=
  0 < input_duration ∧ output_duration < input_duration * (995 / 1000)

instance (i o : ℚ) : Decidable (durationTooShort i o) := by
  unfold durationTooShort
  infer_instance

/-- `is_output_valid` (lines 143-210).  `output_size` is the stat size of
the existing output file; `probe` is `none` when the ffprobe call on the
output fails or its JSON is malformed (the CalledProcessError /
JSONDecodeError path of line 208, which returns False). -/
def is_output_valid (output_size : Nat) (probe : Option ProbeDoc)
    (input_duration : ℚ) (resolution : String) (fps : ℚ) : Bool :=
  if output_size < 100 * 1024 then false
  else
    match probe with
    | none => false
    | some p =>
      match lastStreamOfType "video" p.streams, lastStreamOfType "audio" p.streams with
      | none, _ => false
      | some _, none => false
      | some video_stream, some audio_stream =>
        if video_stream.codec_name ≠ some "hevc" then false
        else if audio_stream.codec_name ≠ some "aac" then false
        else if durationTooShort input_duration (p.format.duration.getD 0) then false
        else if ¬(video_stream.width.isSome ∧ video_stream.height.isSome ∧
                  video_stream.pix_fmt.isSome) then false
        else if ¬(audio_stream.sample_rate.isSome ∧ audio_stream.channels.isSome) then false
        else if ((p.format.bit_rate.getD 0) / 1000 : ℤ) <
                 (calculate_bitrate resolution fps : ℚ) * (1 / 2) then false
        else true

/-! ## The analyzer (`get_video_info`, lines 59-141) -/

/-- What the external world answers during one `get_video_info` call:
the stat size of the source file, the result of the selective probe
(`-select_streams v:0`, `none` on process/parse error) and of the fallback
probe over all streams. -/
structure GviEnv where
  fileSize : Nat
  probe1 : Option ProbeDoc
  probe2 : Option ProbeDoc

/-- The observable outcome of `get_video_info`: the returned tuple (`none`
for the `return None, None, None, None` paths), how much the global
`skipped` counter was incremented inside the call, and whether ffprobe was
invoked at all. -/
structure GviResult where
  info : Option (String × ℚ × ColorInfo × ℚ)
  skippedInc : Nat
  proberInvoked : Bool

/-- The video-stream search of lines 85-89: first stream with
`codec_type == "video"`. -/
def findVideoStream (streams : List FFStream) : Option FFStream :=
  streams.find? (fun s => s.codec_type == some "video")

/-- The `color_info` extraction of lines 118-127: bt709 defaults, and the
transfer characteristic forced to smpte2084 when an HDR side-data entry is
present. -/
def extractColorInfo (vs : FFStream) : ColorInfo :=
  let base : ColorInfo :=
    { colorprim := vs.color_primaries.getD "bt709"
      transfer := vs.color_transfer.getD "bt709"
      colormatrix := vs.color_space.getD "bt709" }
  if vs.side_data_list.any (fun t =>
      t == "Mastering display metadata" || t == "Content light level metadata") then
    { base with transfer := "smpte2084" }
  else base

/-- The frame-rate parse of lines 100-106: `none` (absent key, which
defaults to the string "30/1", or an unparsable value) gives 30; a zero
denominator gives 30; otherwise num/denom. -/
def parseFps (r : Option (Int × Int)) : ℚ :=
  match r with
  | some (num, denom) => if denom = 0 then 30 else (num : ℚ) / (denom : ℚ)
  | none => 30

/-- `get_video_info` (lines 59-141). -/
def get_video_info (env : GviEnv) : GviResult :=
  if env.fileSize < 1024 then
    { info := none, skippedInc := 1, proberInvoked := false }
  else
    match env.probe1 with
    | none => { info := none, skippedInc := 1, proberInvoked := true }
    | some p1 =>
      match (if p1.streams.isEmpty then env.probe2 else some p1) with
      | none => { info := none, skippedInc := 1, proberInvoked := true }
      | some probe =>
        match findVideoStream probe.streams with
        | none => { info := none, skippedInc := 1, proberInvoked := true }
        | some video_stream =>
          match video_stream.width, video_stream.height with
          | some _, some height =>
            { info := some (classifyResolution height,
                            parseFps video_stream.r_frame_rate,
                            extractColorInfo video_stream,
                            probe.format.duration.getD 0)
              skippedInc := 0
              proberInvoked := true }
          | _, _ =>
            { info := none, skippedInc := 1, proberInvoked := true }

/-! ## The orchestrator (`transcode_file`, lines 217-286, and
`process_directory`, lines 288-293) -/

/-- The global `stats` dictionary (line 57). -/
structure RunStats where
  processed : Nat
  failed : Nat
  skipped : Nat

/-- What the external world answers while `transcode_file` processes one
file.  Paths are lists of components; the file's path is
`inputRoot ++ relPath` (the code computes `relative_to(INPUT_DIR)`, so the
input path lies under the input root).  `outputExists` is whether a file
already exists at the derived output path; `outputSize`/`outputProbe` are
what `is_output_valid` would observe there.  `encoderExit` is the ffmpeg
exit code, and `moveOk` is whether creating the quarantine directory and
`shutil.move` into it succeed (when `false`, `shutil.move`/`mkdir` raises
an `OSError`). -/
structure OrchEnv where
  inputRoot : List String
  outputRoot : List String
  relPath : List String
  gvi : GviEnv
  outputExists : Bool
  outputSize : Nat
  outputProbe : Option ProbeDoc
  encoderExit : Int
  moveOk : Bool

/-- The source file's full path. -/
def inputPath (env : OrchEnv) : List String :=
  env.inputRoot ++ env.relPath

/-- The quarantine destination of lines 283-285:
`OUTPUT_DIR / "Failed" / input_path.name` — the output root, the fixed
component "Failed", and the base name (final component) of the input path
only. -/
def quarantineDest (outputRoot : List String) (input_path : List String) : List String :=
  (outputRoot ++ ["Failed"]) ++ [input_path.getLastD ""]

/-- The observable outcome of one `transcode_file` call: the statistics
after the call, whether ffprobe/ffmpeg were invoked, where the source file
resides afterwards (`quarantineDest …` after a successful quarantine move,
its original path otherwise), and whether an exception escaped the call
(`raised = true` models an uncaught error propagating out of
`transcode_file`; the only `except` clause, line 280, catches
`subprocess.CalledProcessError` alone, so an `OSError` from
`mkdir`/`shutil.move` is not caught). -/
structure TFResult where
  stats : RunStats
  proberInvoked : Bool
  encoderInvoked : Bool
  sourceLocation : List String
  raised : Bool

/-- The encode block of lines 250-286: run ffmpeg; on exit 0 increment
`processed`; on a non-zero exit increment `failed`, then create the
quarantine directory and move the source file there — and if that move
fails, the resulting `OSError` is not caught and escapes. -/
def runEncoder (env : OrchEnv) (stats : RunStats) : TFResult :=
  if env.encoderExit = 0 then
    { stats := { stats with processed := stats.processed + 1 }
      proberInvoked := true
      encoderInvoked := true
      sourceLocation := inputPath env
      raised := false }
  else
    let stats1 := { stats with failed := stats.failed + 1 }
    if env.moveOk then
      { stats := stats1
        proberInvoked := true
        encoderInvoked := true
        sourceLocation := quarantineDest env.outputRoot (inputPath env)
        raised := false }
    else
      { stats := stats1
        proberInvoked := true
        encoderInvoked := true
        sourceLocation := inputPath env
        raised := true }

/-- `transcode_file` (lines 217-286).  The guard of line 222 is
`if not resolution or not fps or not input_duration:`; on a successful
probe `resolution` is a non-empty string and hence truthy, so the guard
fires exactly when the probe failed or `fps == 0.0` or
`input_duration == 0.0` — and that early return touches no counter. -/
def transcode_file (env : OrchEnv) (stats0 : RunStats) : TFResult :=
  let g := get_video_info env.gvi
  let stats := { stats0 with skipped := stats0.skipped + g.skippedInc }
  match g.info with
  | none =>
    { stats := stats, proberInvoked := g.proberInvoked, encoderInvoked := false
      sourceLocation := inputPath env, raised := false }
  | some (resolution, fps, _color_info, input_duration) =>
    if fps = 0 ∨ input_duration = 0 then
      { stats := stats, proberInvoked := g.proberInvoked, encoderInvoked := false
        sourceLocation := inputPath env, raised := false }
    else
      if env.outputExists then
        if is_output_valid env.outputSize env.outputProbe input_duration resolution fps then
          { stats := { stats with skipped := stats.skipped + 1 }
            proberInvoked := g.proberInvoked, encoderInvoked := false
            sourceLocation := inputPath env, raised := false }
        else
          -- the invalid output is unlinked (line 240), then encoding proceeds
          runEncoder env stats
      else
        runEncoder env stats

/-- `process_directory` (lines 288-293): the recognized files are processed
sequentially by `transcode_file`; the loop body has no exception handler,
so an exception escaping `transcode_file` aborts the run (`none`) and no
further file is processed. -/
def process_directory (envs : List OrchEnv) (stats : RunStats) : Option RunStats :=
  match envs with
  | [] => some stats
  | env :: rest =>
    let r := transcode_file env stats
    if r.raised then none else process_directory rest r.stats

/-! ## Concrete fixtures used by the witnesses and counterexamples -/

/-- A plain 1080p/24fps source video stream as ffprobe reports it. -/
def srcStream : FFStream :=
  { codec_type := some "video", codec_name := some "h264", width := some 1920
    height := some 1080, pix_fmt := some "yuv420p", sample_rate := none
    channels := none, r_frame_rate := some (24, 1), color_primaries := none
    color_transfer := none, color_space := none, side_data_list := [] }

/-- Source probe document with a known duration of 100 seconds. -/
def srcDoc : ProbeDoc :=
  { streams := [srcStream], format := { duration := some 100, bit_rate := none } }

/-- Source probe document whose format section carries no duration key:
`get_video_info` then reports duration 0. -/
def srcDocNoDuration : ProbeDoc :=
  { streams := [srcStream], format := { duration := none, bit_rate := none } }

/-- Analyzer environment for a healthy 5000-byte source file. -/
def gviOk : GviEnv :=
  { fileSize := 5000, probe1 := some srcDoc, probe2 := none }

/-- Analyzer environment for a probe that succeeds but reports no
format-level duration. -/
def gviNoDuration : GviEnv :=
  { fileSize := 5000, probe1 := some srcDocNoDuration, probe2 := none }

/-- Analyzer environment for a 10-byte source file. -/
def gviTiny : GviEnv :=
  { fileSize := 10, probe1 := none, probe2 := none }

/-- A file that probes fine, has no pre-existing output, and whose encode
exits with status 1; the quarantine move succeeds. -/
def envEncodeFail : OrchEnv :=
  { inputRoot := ["in"], outputRoot := ["out"], relPath := ["clips", "a.mov"]
    gvi := gviOk, outputExists := false, outputSize := 0, outputProbe := none
    encoderExit := 1, moveOk := true }

/-- Same failing encode, but the quarantine move itself fails. -/
def envMoveFail : OrchEnv :=
  { envEncodeFail with moveOk := false }

/-- A file whose probe succeeds but reports duration 0. -/
def envDurationZero : OrchEnv :=
  { envEncodeFail with gvi := gviNoDuration }

/-- A 10-byte file. -/
def envTiny : OrchEnv :=
  { envEncodeFail with gvi := gviTiny }

/-- A valid hevc output video stream. -/
def outVideoHevc : FFStream :=
  { codec_type := some "video", codec_name := some "hevc", width := some 1920
    height := some 1080, pix_fmt := some "yuv420p10le", sample_rate := none
    channels := none, r_frame_rate := none, color_primaries := none
    color_transfer := none, color_space := none, side_data_list := [] }

/-- A second, non-hevc video stream. -/
def outVideoH264 : FFStream :=
  { outVideoHevc with codec_name := some "h264" }

/-- A valid aac output audio stream. -/
def outAudioAac : FFStream :=
  { codec_type := some "audio", codec_name := some "aac", width := none
    height := none, pix_fmt := none, sample_rate := some 48000
    channels := some 2, r_frame_rate := none, color_primaries := none
    color_transfer := none, color_space := none, side_data_list := [] }

/-- A fully healthy output probe: one video, one audio, duration 100,
overall bitrate 8000 kbps. -/
def outDocGood : ProbeDoc :=
  { streams := [outVideoHevc, outAudioAac]
    format := { duration := some 100, bit_rate := some 8000000 } }

/-- An output probe with two video streams (the last one hevc) and one
audio stream; all other fields healthy. -/
def outDocTwoVideo : ProbeDoc :=
  { streams := [outVideoH264, outVideoHevc, outAudioAac]
    format := { duration := some 100, bit_rate := some 8000000 } }

/-- A healthy output probe whose format section has no `bit_rate` key. -/
def outDocNoBitrate : ProbeDoc :=
  { streams := [outVideoHevc, outAudioAac]
    format := { duration := some 100, bit_rate := none } }

/-! ## Helper lemmas -/

/-- Every branch of `get_video_info` either fails (returns the `None`
tuple, incrementing `skipped` by one) or succeeds without touching the
counter. -/
theorem get_video_info_dichotomy (e : GviEnv) :
    ((get_video_info e).info = none ∧ (get_video_info e).skippedInc = 1) ∨
    ((get_video_info e).info.isSome = true ∧ (get_video_info e).skippedInc = 0) := by
  unfold get_video_info
  repeat' split
  all_goals simp

/-- A successful probe does not increment the `skipped` counter. -/
theorem get_video_info_some_skippedInc (e : GviEnv) (x : String × ℚ × ColorInfo × ℚ)
    (h : (get_video_info e).info = some x) : (get_video_info e).skippedInc = 0 := by
  rcases get_video_info_dichotomy e with ⟨h1, _⟩ | ⟨_, h2⟩
  · rw [h] at h1
    exact absurd h1 (by simp)
  · exact h2

/-- Facts forced by a `True` verdict of `is_output_valid`: the size check,
both stream lookups, the duration check and the bitrate check all passed. -/
theorem is_output_valid_checks (sz : Nat) (p : ProbeDoc) (dur : ℚ)
    (res : String) (f : ℚ)
    (h : is_output_valid sz (some p) dur res f = true) :
    ¬ sz < 100 * 1024 ∧
    (lastStreamOfType "video" p.streams).isSome = true ∧
    (lastStreamOfType "audio" p.streams).isSome = true ∧
    ¬ durationTooShort dur (p.format.duration.getD 0) ∧
    ¬ (((p.format.bit_rate.getD 0) / 1000 : ℤ) <
        (calculate_bitrate res f : ℚ) * (1 / 2)) := by
  simp only [is_output_valid] at h
  split at h
  · exact absurd h (by simp)
  rename_i hsz
  split at h
  · exact absurd h (by simp)
  · exact absurd h (by simp)
  rename_i video_stream audio_stream hv ha
  split at h
  · exact absurd h (by simp)
  split at h
  · exact absurd h (by simp)
  split at h
  · exact absurd h (by simp)
  rename_i hdur
  split at h
  · exact absurd h (by simp)
  split at h
  · exact absurd h (by simp)
  split at h
  · exact absurd h (by simp)
  rename_i hbr
  exact ⟨hsz, by rw [hv]; rfl, by rw [ha]; rfl, hdur, hbr⟩

/-- If the stream scan returns a stream, some stream of that type occurs in
the list (proved by induction over the fold, generalizing the
accumulator). -/
theorem lastStreamOfType_isSome_mem (t : String) (l : List FFStream)
    (h : (lastStreamOfType t l).isSome = true) :
    ∃ s ∈ l, s.codec_type = some t := by
  unfold lastStreamOfType at h
  suffices H : ∀ (acc : Option FFStream),
      (l.foldl (fun a s => if s.codec_type = some t then some s else a) acc).isSome = true →
      acc.isSome = true ∨ ∃ s ∈ l, s.codec_type = some t by
    rcases H none h with h' | h'
    · exact absurd h' (by simp)
    · exact h'
  clear h
  induction l with
  | nil =>
    intro acc h
    exact Or.inl h
  | cons x xs ih =>
    intro acc h
    rcases ih _ h with h' | ⟨s, hs, hst⟩
    · by_cases hx : x.codec_type = some t
      · exact Or.inr ⟨x, List.mem_cons_self x xs, hx⟩
      · simp only [hx, if_false, reduceIte] at h'
        exact Or.inl h'
    · exact Or.inr ⟨s, List.mem_cons_of_mem x hs, hst⟩

/-- A found stream means the count of streams of that type is at least 1. -/
theorem lastStreamOfType_isSome_count (t : String) (l : List FFStream)
    (h : (lastStreamOfType t l).isSome = true) :
    1 ≤ countStreamsOfType t l := by
  obtain ⟨s, hs, hst⟩ := lastStreamOfType_isSome_mem t l h
  have hmem : s ∈ l.filter (fun s => s.codec_type == some t) :=
    List.mem_filter.mpr ⟨hs, by simp [hst]⟩
  have := List.ne_nil_of_mem hmem
  unfold countStreamsOfType
  exact List.length_pos.mpr this

/-- The bitrate policy never goes below the 480p base of 2000 kbps: every
base is at least 2000 and the multiplier is at least 1. -/
theorem calculate_bitrate_lower_bound (res : String) (f : ℚ) :
    2000 ≤ calculate_bitrate res f := by
  unfold calculate_bitrate
  have hbase : (2000 : ℚ) ≤ ((base_bitrates res).getD 10000 : ℚ) := by
    unfold base_bitrates
    split_ifs <;> norm_num
  have hmul : (1 : ℚ) ≤ (if f > 30 then 3 / 2 else 1) := by
    split_ifs <;> norm_num
  have hprod : (2000 : ℚ) ≤ ((base_bitrates res).getD 10000 : ℚ) *
      (if f > 30 then 3 / 2 else 1) := by
    calc (2000 : ℚ) = 2000 * 1 := by norm_num
    _ ≤ ((base_bitrates res).getD 10000 : ℚ) * (if f > 30 then 3 / 2 else 1) := by
        apply mul_le_mul hbase hmul (by norm_num)
        positivity
  exact_mod_cast Int.le_floor.mpr (by exact_mod_cast hprod)

/-- The healthy single-video single-audio fixture output passes every
check of `is_output_valid`. -/
theorem outDocGood_accepted :
    is_output_valid 204800 (some outDocGood) 100 "1080p" 24 = true := by
  simp [is_output_valid, outDocGood, outVideoHevc, outAudioAac, lastStreamOfType,
        durationTooShort, calculate_bitrate, base_bitrates]
  norm_num

/-! ## Claims -/

/-- C1: for every resolution class r in {480p, 720p, 1080p, 4k, unknown}
and every frame rate f, `calculate_bitrate r f` equals the floor of
base(r) × m, where base is the spec's table (unknown ↦ the 1080p base of
10000) and m = 1.5 when f > 30 else 1.0; in particular
bitrate("1080p", 24) = 10000, bitrate("1080p", 60) = 15000,
bitrate("4k", 60) = 52500 and bitrate("unknown", 24) = 10000. -/
theorem C1_bitrate_matches_spec_table (r : String) (f : ℚ)
    (hr : r ∈ ["480p", "720p", "1080p", "4k", "unknown"]) :
    calculate_bitrate r f =
      Int.floor ((specBaseBitrate r : ℚ) * (if f > 30 then 3 / 2 else 1)) ∧
    calculate_bitrate "1080p" 24 = 10000 ∧
    calculate_bitrate "1080p" 60 = 15000 ∧
    calculate_bitrate "4k" 60 = 52500 ∧
    calculate_bitrate "unknown" 24 = 10000 := by
  refine ⟨?_, ?_, ?_, ?_, ?_⟩
  · fin_cases hr <;>
      · by_cases hf : f > 30 <;>
          simp [calculate_bitrate, base_bitrates, specBaseBitrate, hf]
  all_goals simp [calculate_bitrate, base_bitrates]
  all_goals norm_num

/-- C1 witness at r = "4k", f = 60. -/
theorem C1_witness :
    ("4k" ∈ ["480p", "720p", "1080p", "4k", "unknown"]) ∧
    calculate_bitrate "4k" 60 =
      Int.floor ((specBaseBitrate "4k" : ℚ) * (if (60 : ℚ) > 30 then 3 / 2 else 1)) :=
  ⟨by simp, (C1_bitrate_matches_spec_table "4k" 60 (by simp)).1⟩

/-- C2: for every positive parsed height, the classification returns 480p
up to 480, 720p up to 720, 1080p up to 1080, 4k up to 2160, and unknown
above 2160 (inclusive upper thresholds). -/
theorem C2_resolution_classification (n : Nat) (hpos : 0 < n) :
    (n ≤ 480 → classifyResolution n = "480p") ∧
    (480 < n → n ≤ 720 → classifyResolution n = "720p") ∧
    (720 < n → n ≤ 1080 → classifyResolution n = "1080p") ∧
    (1080 < n → n ≤ 2160 → classifyResolution n = "4k") ∧
    (2160 < n → classifyResolution n = "unknown") := by
  refine ⟨?_, ?_, ?_, ?_, ?_⟩
  · intro h1
    simp [classifyResolution, h1]
  · intro h1 h2
    simp [classifyResolution, show ¬ n ≤ 480 by omega, h2]
  · intro h1 h2
    simp [classifyResolution, show ¬ n ≤ 480 by omega, show ¬ n ≤ 720 by omega, h2]
  · intro h1 h2
    simp [classifyResolution, show ¬ n ≤ 480 by omega, show ¬ n ≤ 720 by omega,
          show ¬ n ≤ 1080 by omega, h2]
  · intro h1
    simp [classifyResolution, show ¬ n ≤ 480 by omega, show ¬ n ≤ 720 by omega,
          show ¬ n ≤ 1080 by omega, show ¬ n ≤ 2160 by omega]

/-- C2 witness at height 720. -/
theorem C2_witness :
    0 < 720 ∧ ((720 ≤ 480 → classifyResolution 720 = "480p") ∧
    (480 < 720 → 720 ≤ 720 → classifyResolution 720 = "720p") ∧
    (720 < 720 → 720 ≤ 1080 → classifyResolution 720 = "1080p") ∧
    (1080 < 720 → 720 ≤ 2160 → classifyResolution 720 = "4k") ∧
    (2160 < 720 → classifyResolution 720 = "unknown")) :=
  ⟨by norm_num, C2_resolution_classification 720 (by norm_num)⟩

/-- C7: with a positive input duration, the validator rejects any output
whose reported duration is strictly below 99.5% of the input duration, and
the duration check passes at or above that fraction; in particular 99.4%
is rejected by the check and 99.6% passes it. -/
theorem C7_duration_tolerance (input_duration output_duration : ℚ)
    (hpos : 0 < input_duration) :
    (output_duration < input_duration * (995 / 1000) →
      durationTooShort input_duration output_duration ∧
      ∀ (sz : Nat) (p : ProbeDoc) (res : String) (f : ℚ),
        p.format.duration = some output_duration →
        is_output_valid sz (some p) input_duration res f = false) ∧
    (input_duration * (995 / 1000) ≤ output_duration →
      ¬ durationTooShort input_duration output_duration) ∧
    durationTooShort input_duration (input_duration * (994 / 1000)) ∧
    ¬ durationTooShort input_duration (input_duration * (996 / 1000)) := by
  refine ⟨?_, ?_, ?_, ?_⟩
  · intro hlt
    refine ⟨⟨hpos, hlt⟩, ?_⟩
    intro sz p res f hdur
    rcases Bool.eq_false_or_eq_true (is_output_valid sz (some p) input_duration res f)
      with hb | hb
    swap
    · exact hb
    · obtain ⟨-, -, -, hdur', -⟩ := is_output_valid_checks sz p input_duration res f hb
      rw [hdur] at hdur'
      simp only [Option.getD_some] at hdur'
      exact absurd (⟨hpos, hlt⟩ : durationTooShort input_duration output_duration) hdur' 
  · rintro hge ⟨-, hlt⟩
    linarith
  · refine ⟨hpos, ?_⟩
    have := mul_lt_mul_of_pos_left (show (994 / 1000 : ℚ) < 995 / 1000 by norm_num) hpos
    linarith
  · rintro ⟨-, hlt⟩
    have := mul_lt_mul_of_pos_left (show (995 / 1000 : ℚ) < 996 / 1000 by norm_num) hpos
    linarith

/-- C7 witness at an input duration of 100 seconds. -/
theorem C7_witness :
    (0 : ℚ) < 100 ∧
    (durationTooShort 100 (100 * (994 / 1000)) ∧
     ¬ durationTooShort 100 (100 * (996 / 1000))) :=
  ⟨by norm_num, (C7_duration_tolerance 100 100 (by norm_num)).2.2⟩

/-- C9: an output probe whose format section lacks the `bit_rate` key, or
reports it as 0, is always rejected: the defaulted 0 kbps is compared
against half the expected bitrate, which is at least 1000 kbps for every
(resolutionClass, frameRate) input. -/
theorem C9_missing_bitrate_rejects (sz : Nat) (p : ProbeDoc) (dur : ℚ)
    (res : String) (f : ℚ)
    (h : p.format.bit_rate = none ∨ p.format.bit_rate = some 0) :
    is_output_valid sz (some p) dur res f = false ∧
    (1000 : ℚ) ≤ (calculate_bitrate res f : ℚ) * (1 / 2) := by
  have hexp : (1000 : ℚ) ≤ (calculate_bitrate res f : ℚ) * (1 / 2) := by
    have h2 : (2000 : ℚ) ≤ (calculate_bitrate res f : ℚ) := by
      exact_mod_cast calculate_bitrate_lower_bound res f
    linarith
  refine ⟨?_, hexp⟩
  rcases Bool.eq_false_or_eq_true (is_output_valid sz (some p) dur res f) with hb | hb
  swap
  · exact hb
  · obtain ⟨-, -, -, -, hbr⟩ := is_output_valid_checks sz p dur res f hb
    have h0 : p.format.bit_rate.getD 0 = 0 := by
      rcases h with h | h <;> simp [h]
    rw [h0] at hbr
    apply absurd _ hbr
    push_cast
    linarith

/-- C9 witness: a healthy output document without a `bit_rate` key. -/
theorem C9_witness :
    (outDocNoBitrate.format.bit_rate = none ∨
     outDocNoBitrate.format.bit_rate = some 0) ∧
    (is_output_valid 204800 (some outDocNoBitrate) 100 "1080p" 24 = false ∧
     (1000 : ℚ) ≤ (calculate_bitrate "1080p" 24 : ℚ) * (1 / 2)) :=
  ⟨Or.inl (by simp [outDocNoBitrate]),
   C9_missing_bitrate_rejects 204800 outDocNoBitrate 100 "1080p" 24
     (Or.inl (by simp [outDocNoBitrate]))⟩

/-- C3: a file that reaches the encoding stage (successful probe with
non-zero fps and duration, and no valid pre-existing output) whose encoder
exits non-zero has `failed` incremented by exactly 1 (no other counter
moves), and — provided the quarantine move succeeds and the destination
differs from the original path — the source file ends up inside the
quarantine directory `<outputRoot>/Failed` and is no longer at its
original path. -/
theorem C3_encoder_failure_quarantines (env : OrchEnv) (s : RunStats)
    (res : String) (fps : ℚ) (ci : ColorInfo) (dur : ℚ)
    (hinfo : (get_video_info env.gvi).info = some (res, fps, ci, dur))
    (hfps : fps ≠ 0) (hdur : dur ≠ 0)
    (hout : env.outputExists = false ∨
      is_output_valid env.outputSize env.outputProbe dur res fps = false)
    (hexit : env.encoderExit ≠ 0) (hmove : env.moveOk = true)
    (hne : quarantineDest env.outputRoot (inputPath env) ≠ inputPath env) :
    (transcode_file env s).encoderInvoked = true ∧
    (transcode_file env s).stats.failed = s.failed + 1 ∧
    (transcode_file env s).stats.processed = s.processed ∧
    (transcode_file env s).stats.skipped = s.skipped ∧
    (transcode_file env s).sourceLocation =
      quarantineDest env.outputRoot (inputPath env) ∧
    (transcode_file env s).sourceLocation.dropLast = env.outputRoot ++ ["Failed"] ∧
    (transcode_file env s).sourceLocation ≠ inputPath env ∧
    (transcode_file env s).raised = false := by
  have hz := get_video_info_some_skippedInc env.gvi _ hinfo
  have hcond : ¬ (fps = 0 ∨ dur = 0) := by tauto
  have htf : transcode_file env s = runEncoder env s := by
    rcases hout with hout | hout
    · simp [transcode_file, hinfo, hz, hcond, hout]
    · by_cases hoe : env.outputExists
      · simp [transcode_file, hinfo, hz, hcond, hoe, hout]
      · simp [transcode_file, hinfo, hz, hcond, hoe]
  rw [htf]
  unfold runEncoder
  rw [if_neg hexit, if_pos hmove]
  refine ⟨rfl, rfl, rfl, rfl, rfl, ?_, hne, rfl⟩
  simp [quarantineDest]

/-- C3 witness: a concrete failing encode of `in/clips/a.mov`. -/
theorem C3_witness :
    (get_video_info envEncodeFail.gvi).info =
      some ("1080p", 24, extractColorInfo srcStream, 100) ∧
    envEncodeFail.encoderExit ≠ 0 ∧ envEncodeFail.moveOk = true ∧
    ((transcode_file envEncodeFail ⟨0, 0, 0⟩).encoderInvoked = true ∧
     (transcode_file envEncodeFail ⟨0, 0, 0⟩).stats.failed = 0 + 1 ∧
     (transcode_file envEncodeFail ⟨0, 0, 0⟩).stats.processed = 0 ∧
     (transcode_file envEncodeFail ⟨0, 0, 0⟩).stats.skipped = 0 ∧
     (transcode_file envEncodeFail ⟨0, 0, 0⟩).sourceLocation =
       quarantineDest envEncodeFail.outputRoot (inputPath envEncodeFail) ∧
     (transcode_file envEncodeFail ⟨0, 0, 0⟩).sourceLocation.dropLast =
       envEncodeFail.outputRoot ++ ["Failed"] ∧
     (transcode_file envEncodeFail ⟨0, 0, 0⟩).sourceLocation ≠
       inputPath envEncodeFail ∧
     (transcode_file envEncodeFail ⟨0, 0, 0⟩).raised = false) :=
  ⟨by simp [envEncodeFail, gviOk, get_video_info, srcDoc, srcStream, findVideoStream,
            classifyResolution, parseFps],
   by simp [envEncodeFail],
   by simp [envEncodeFail],
   C3_encoder_failure_quarantines envEncodeFail ⟨0, 0, 0⟩
     "1080p" 24 (extractColorInfo srcStream) 100
     (by simp [envEncodeFail, gviOk, get_video_info, srcDoc, srcStream, findVideoStream,
               classifyResolution, parseFps])
     (by norm_num) (by norm_num)
     (Or.inl (by simp [envEncodeFail]))
     (by simp [envEncodeFail])
     (by simp [envEncodeFail])
     (by simp [envEncodeFail, quarantineDest, inputPath])⟩

/-- C4 counterexample: when the quarantine move after a failed encode
itself fails, the resulting `OSError` is not caught (the only handler
catches `subprocess.CalledProcessError`), so the exception escapes
`transcode_file` and the run aborts — the next discovered file is never
processed, contrary to the claim. -/
theorem C4_counterexample :
    (transcode_file envMoveFail ⟨0, 0, 0⟩).raised = true ∧
    process_directory [envMoveFail, envTiny] ⟨0, 0, 0⟩ = none := by
  have h1 : (transcode_file envMoveFail ⟨0, 0, 0⟩).raised = true := by
    simp [transcode_file, envMoveFail, envEncodeFail, gviOk, get_video_info, srcDoc,
          srcStream, findVideoStream, classifyResolution, parseFps, runEncoder]
  exact ⟨h1, by simp [process_directory, h1]⟩

/-- C4 amended: a failure of the quarantine move after a failed encode is
not handled — the exception propagates out of `transcode_file` and aborts
the run, so no later file is processed (the `failed` counter has already
been incremented before the move). -/
theorem C4_amended_move_failure_aborts (env : OrchEnv) (s : RunStats)
    (res : String) (fps : ℚ) (ci : ColorInfo) (dur : ℚ)
    (rest : List OrchEnv)
    (hinfo : (get_video_info env.gvi).info = some (res, fps, ci, dur))
    (hfps : fps ≠ 0) (hdur : dur ≠ 0)
    (hout : env.outputExists = false ∨
      is_output_valid env.outputSize env.outputProbe dur res fps = false)
    (hexit : env.encoderExit ≠ 0) (hmove : env.moveOk = false) :
    (transcode_file env s).raised = true ∧
    (transcode_file env s).stats.failed = s.failed + 1 ∧
    process_directory (env :: rest) s = none := by
  have hz := get_video_info_some_skippedInc env.gvi _ hinfo
  have hcond : ¬ (fps = 0 ∨ dur = 0) := by tauto
  have htf : transcode_file env s = runEncoder env s := by
    rcases hout with hout | hout
    · simp [transcode_file, hinfo, hz, hcond, hout]
    · by_cases hoe : env.outputExists
      · simp [transcode_file, hinfo, hz, hcond, hoe, hout]
      · simp [transcode_file, hinfo, hz, hcond, hoe]
  have hr : (transcode_file env s).raised = true := by
    rw [htf]
    unfold runEncoder
    simp [hexit, hmove]
  refine ⟨hr, ?_, ?_⟩
  · rw [htf]
    unfold runEncoder
    simp [hexit, hmove]
  · simp [process_directory, hr]

/-- C4 amended witness: the same failing encode with a failing move,
followed by another discovered file that is never reached. -/
theorem C4_amended_witness :
    envMoveFail.encoderExit ≠ 0 ∧ envMoveFail.moveOk = false ∧
    ((transcode_file envMoveFail ⟨0, 0, 0⟩).raised = true ∧
     (transcode_file envMoveFail ⟨0, 0, 0⟩).stats.failed = 0 + 1 ∧
     process_directory [envMoveFail, envTiny] ⟨0, 0, 0⟩ = none) :=
  ⟨by simp [envMoveFail, envEncodeFail],
   by simp [envMoveFail, envEncodeFail],
   C4_amended_move_failure_aborts envMoveFail ⟨0, 0, 0⟩
     "1080p" 24 (extractColorInfo srcStream) 100 [envTiny]
     (by simp [envMoveFail, envEncodeFail, gviOk, get_video_info, srcDoc, srcStream,
               findVideoStream, classifyResolution, parseFps])
     (by norm_num) (by norm_num)
     (Or.inl (by simp [envMoveFail, envEncodeFail]))
     (by simp [envMoveFail, envEncodeFail])
     (by simp [envMoveFail, envEncodeFail])⟩

/-- C5 (code-bug evidence): a ≥ 1 KiB file whose probe succeeds — video
stream found, 1080p, 24 fps — but whose format section has no duration key
is returned by `get_video_info` as a valid tuple with duration 0 and no
counter increment; `transcode_file` then hits the falsy-duration guard of
line 222 and returns without touching any counter: the statistics are
mutated zero times for this file, not exactly once. -/
theorem C5_duration_zero_mutates_no_counter :
    (get_video_info gviNoDuration).info =
      some ("1080p", 24, extractColorInfo srcStream, 0) ∧
    (get_video_info gviNoDuration).skippedInc = 0 ∧
    (transcode_file envDurationZero ⟨3, 4, 5⟩).stats.processed = 3 ∧
    (transcode_file envDurationZero ⟨3, 4, 5⟩).stats.failed = 4 ∧
    (transcode_file envDurationZero ⟨3, 4, 5⟩).stats.skipped = 5 ∧
    (transcode_file envDurationZero ⟨3, 4, 5⟩).proberInvoked = true ∧
    (transcode_file envDurationZero ⟨3, 4, 5⟩).encoderInvoked = false := by
  have hinfo : (get_video_info gviNoDuration).info =
      some ("1080p", 24, extractColorInfo srcStream, 0) := by
    simp [get_video_info, gviNoDuration, srcDocNoDuration, srcStream, findVideoStream,
          classifyResolution, parseFps]
  refine ⟨hinfo, ?_, ?_⟩
  · simp [get_video_info, gviNoDuration, srcDocNoDuration, srcStream, findVideoStream]
  · simp [transcode_file, envDurationZero, envEncodeFail, gviNoDuration, srcDocNoDuration,
          srcStream, findVideoStream, classifyResolution, parseFps, get_video_info]

/-- C6 counterexample: an output whose probe reports two video streams
(and one audio stream) is accepted by `is_output_valid` — the stream scan
only requires the variables to be non-None, keeping the last stream of
each kind — contradicting the claim that any configuration other than
exactly one of each is rejected. -/
theorem C6_counterexample :
    is_output_valid 204800 (some outDocTwoVideo) 100 "1080p" 24 = true ∧
    countStreamsOfType "video" outDocTwoVideo.streams = 2 ∧
    countStreamsOfType "audio" outDocTwoVideo.streams = 1 := by
  refine ⟨?_, ?_, ?_⟩
  · simp [is_output_valid, outDocTwoVideo, outVideoH264, outVideoHevc, outAudioAac,
          lastStreamOfType, durationTooShort, calculate_bitrate, base_bitrates]
    norm_num
  · simp [countStreamsOfType, outDocTwoVideo, outVideoH264, outVideoHevc, outAudioAac]
  · simp [countStreamsOfType, outDocTwoVideo, outVideoH264, outVideoHevc, outAudioAac]

/-- C6 amended: `is_output_valid` accepts only when the probe reports at
least one stream tagged video and at least one tagged audio (the codec and
metadata checks then apply to the last stream of each kind); zero streams
of either kind is rejected, but duplicates are not. -/
theorem C6_amended_at_least_one_of_each (sz : Nat) (p : ProbeDoc) (dur : ℚ)
    (res : String) (f : ℚ)
    (h : is_output_valid sz (some p) dur res f = true) :
    1 ≤ countStreamsOfType "video" p.streams ∧
    1 ≤ countStreamsOfType "audio" p.streams := by
  obtain ⟨-, hv, ha, -, -⟩ := is_output_valid_checks sz p dur res f h
  exact ⟨lastStreamOfType_isSome_count _ _ hv, lastStreamOfType_isSome_count _ _ ha⟩

/-- C6 amended witness: a healthy single-video single-audio output. -/
theorem C6_amended_witness :
    is_output_valid 204800 (some outDocGood) 100 "1080p" 24 = true ∧
    (1 ≤ countStreamsOfType "video" outDocGood.streams ∧
     1 ≤ countStreamsOfType "audio" outDocGood.streams) :=
  ⟨outDocGood_accepted,
   C6_amended_at_least_one_of_each 204800 outDocGood 100 "1080p" 24 outDocGood_accepted⟩

/-- C8: a source file smaller than 1024 bytes is skipped immediately: the
skipped counter is incremented by exactly 1, the prober is never invoked,
and the file never reaches the encode stage. -/
theorem C8_small_file_skipped_without_probe (env : OrchEnv) (s : RunStats)
    (h : env.gvi.fileSize < 1024) :
    (transcode_file env s).stats.skipped = s.skipped + 1 ∧
    (transcode_file env s).stats.processed = s.processed ∧
    (transcode_file env s).stats.failed = s.failed ∧
    (transcode_file env s).proberInvoked = false ∧
    (transcode_file env s).encoderInvoked = false := by
  simp [transcode_file, get_video_info, h]

/-- C8 witness: a 10-byte file. -/
theorem C8_witness :
    envTiny.gvi.fileSize < 1024 ∧
    ((transcode_file envTiny ⟨0, 0, 0⟩).stats.skipped = 0 + 1 ∧
     (transcode_file envTiny ⟨0, 0, 0⟩).stats.processed = 0 ∧
     (transcode_file envTiny ⟨0, 0, 0⟩).stats.failed = 0 ∧
     (transcode_file envTiny ⟨0, 0, 0⟩).proberInvoked = false ∧
     (transcode_file envTiny ⟨0, 0, 0⟩).encoderInvoked = false) :=
  ⟨by simp [envTiny, envEncodeFail, gviTiny],
   C8_small_file_skipped_without_probe envTiny ⟨0, 0, 0⟩
     (by simp [envTiny, envEncodeFail, gviTiny])⟩

/-- C10: the quarantine destination is the output root, the fixed
component "Failed" and the input path's base name only — the position of
the file relative to the input root plays no part — so two distinct input
paths with the same base name target the same quarantine path. -/
theorem C10_quarantine_base_name_collision (outputRoot p1 p2 : List String)
    (hbase : p1.getLastD "" = p2.getLastD "") (hne : p1 ≠ p2) :
    quarantineDest outputRoot p1 = outputRoot ++ ["Failed", p1.getLastD ""] ∧
    quarantineDest outputRoot p1 = quarantineDest outputRoot p2 := by
  constructor
  · simp [quarantineDest]
  · unfold quarantineDest
    rw [hbase]

/-- C10 witness: `in/a/x.mov` and `in/b/x.mov` collide in quarantine. -/
theorem C10_witness :
    (["in", "a", "x.mov"].getLastD "" = ["in", "b", "x.mov"].getLastD "") ∧
    ["in", "a", "x.mov"] ≠ ["in", "b", "x.mov"] ∧
    (quarantineDest ["out"] ["in", "a", "x.mov"] =
       ["out"] ++ ["Failed", ["in", "a", "x.mov"].getLastD ""] ∧
     quarantineDest ["out"] ["in", "a", "x.mov"] =
       quarantineDest ["out"] ["in", "b", "x.mov"]) :=
  ⟨rfl, by simp,
   C10_quarantine_base_name_collision ["out"] ["in", "a", "x.mov"] ["in", "b", "x.mov"]
     rfl (by simp)⟩

end Trancoder
